import Mathlib

/-!
Shallow embedding of the Meshtastic-device core under verification:
the reliable delivery layer (`src/mesh/ReliableRouter.cpp`), the ack/nak
construction glue (`src/plugins/RoutingPlugin.cpp`) and the node database
(`src/mesh/NodeDB.cpp`).

Machine integers are modelled as `Nat` (with explicit `% 2^32` where the
C++ relies on `uint32_t` wraparound).  External collaborators (the flooding
substrate, the retransmission-interval oracle, the filesystem, the random
number source) are modelled as explicit parameters or oracles; their calls
are recorded in result structures so that theorems can speak about which
effects an operation produced.
-/

namespace Meshtastic

/-! ## Constants -/

/-- All-ones 32-bit node number denoting broadcast. -/
def NODENUM_BROADCAST : Nat := 4294967295

/-- Reserved low node numbers (`NodeDB.cpp`, `#define NUM_RESERVED 4`). -/
def NUM_RESERVED : Nat := 4

/-- `ReliableRouter.cpp`, `#define NUM_RETRANSMISSIONS 3`. -/
def NUM_RETRANSMISSIONS : Nat := 3

/-- `Routing_Error_NONE` protobuf enum value. -/
def Routing_Error_NONE : Nat := 0

/-- `Routing_Error_MAX_RETRANSMIT` protobuf enum value. -/
def Routing_Error_MAX_RETRANSMIT : Nat := 5

/-- `MeshPacket_Priority_ACK` protobuf enum value. -/
def MeshPacket_Priority_ACK : Nat := 120

/-- `INT32_MAX`, the initial sleep-delay accumulator in `doRetransmissions`. -/
def INT32_MAX : Nat := 2147483647

/-! ## Packet data model -/

/-- The decoded sub-record of a `MeshPacket` (`decoded.request_id` is all the
claims need). -/
structure DecodedData where
  request_id : Nat
  deriving DecidableEq, Repr

/-- Model of `MeshPacket`, restricted to the fields the reliable layer and the
claims read or write.  The C++ field `from` is spelled `from_` because `from`
is a Lean keyword. -/
structure MeshPacket where
  from_ : Nat
  to_ : Nat
  id : Nat
  hop_limit : Nat
  want_ack : Bool
  decoded : DecodedData
  deriving DecidableEq, Repr

/-- Model of a decoded `Routing` control record. -/
structure Routing where
  error_reason : Nat
  deriving DecidableEq, Repr

/-- Packet produced by `RoutingPlugin::sendAckNak` (`RoutingPlugin.cpp`):
a routing payload with the given error reason, `priority = ACK`,
`hop_limit = 0`, `to = to`, `decoded.request_id = idFrom`. -/
structure AckNakPkt where
  error_reason : Nat
  to_ : Nat
  request_id : Nat
  hop_limit : Nat
  priority : Nat
  deriving DecidableEq, Repr

/-- `RoutingPlugin::sendAckNak(err, to, idFrom)`: the constructed ack/nak
packet (its dispatch through `router->sendLocal` is recorded by the caller
appending it to an output list). -/
def sendAckNak (err to_ idFrom : Nat) : AckNakPkt :=
  { error_reason := err, to_ := to_, request_id := idFrom,
    hop_limit := 0, priority := MeshPacket_Priority_ACK }

/-- `getFrom` (`NodeDB.cpp`): packets `from == 0` come from the local phone and
are treated as if they originated on the local node. -/
def getFrom (myNodeNum : Nat) (p : MeshPacket) : Nat :=
  if p.from_ = 0 then myNodeNum else p.from_

/-! ## Reliable router: pending retransmission table -/

/-- `GlobalPacketId`: the `(from, id)` pair keying the pending table. -/
abbrev GlobalPacketId := Nat × Nat

/-- Modelled from the spec: the `GlobalPacketId(const MeshPacket *)`
constructor lives in `ReliableRouter.h`, which is not among the sources;
the spec's `start_retransmission` step 1 says "Build `id = (p.from, p.id)`". -/
def globalPacketIdOf (p : MeshPacket) : GlobalPacketId := (p.from_, p.id)

/-- `PendingPacket`: one pending retransmission record. -/
structure PendingPacket where
  packet : MeshPacket
  nextTxMsec : Nat
  numRetransmissions : Nat
  deriving DecidableEq, Repr

/-- The pending table (`std::unordered_map<GlobalPacketId, PendingPacket>`),
modelled as an association list with unique keys. -/
abbrev PendingTable := List (GlobalPacketId × PendingPacket)

/-- `ReliableRouter::findPendingPacket`. -/
def findPendingPacket (pending : PendingTable) (key : GlobalPacketId) :
    Option PendingPacket :=
  (pending.find? (fun e => decide (e.fst = key))).map (·.snd)

/-- `pending.erase(key)` of the map: drop the entry with the given key. -/
def eraseKey (pending : PendingTable) (key : GlobalPacketId) : PendingTable :=
  pending.filter (fun e => !(decide (e.fst = key)))

/-- `ReliableRouter::stopRetransmission(key)`: remove the entry if present
(releasing its packet back to the pool); return the table and whether a
record was found. -/
def stopRetransmission (pending : PendingTable) (key : GlobalPacketId) :
    PendingTable × Bool :=
  match findPendingPacket pending key with
  | some _ => (eraseKey pending key, true)
  | none => (pending, false)

/-- `ReliableRouter::setNextTx`: `nextTxMsec = millis() + iface->getRetransmissionMsec(packet)`.
`now` and the interval oracle `retx` are explicit parameters. -/
def setNextTx (now : Nat) (retx : MeshPacket → Nat) (pp : PendingPacket) :
    PendingPacket :=
  { pp with nextTxMsec := now + retx pp.packet }

/-- `ReliableRouter::startRetransmission(p)`: build the key, build a record
with `numRetransmissions = NUM_RETRANSMISSIONS - 1`, evict any record under
`(getFrom(p), p.id)`, set its next transmit time, and insert it. -/
def startRetransmission (myNodeNum now : Nat) (retx : MeshPacket → Nat)
    (pending : PendingTable) (p : MeshPacket) : PendingTable :=
  let key := globalPacketIdOf p
  let pp : PendingPacket :=
    { packet := p, nextTxMsec := 0, numRetransmissions := NUM_RETRANSMISSIONS - 1 }
  let pending1 := (stopRetransmission pending (getFrom myNodeNum p, p.id)).fst
  let pp1 := setNextTx now retx pp
  eraseKey pending1 key ++ [(key, pp1)]

/-- Result of `ReliableRouter::send`: the new pending table and the packet
handed on to `FloodingRouter::send` (after the possible hop-limit bump). -/
structure SendResult where
  pending : PendingTable
  sent : MeshPacket
  deriving DecidableEq, Repr

/-- `ReliableRouter::send(p)` (`ReliableRouter.cpp` lines 13-26): for
`want_ack` packets, bump `hop_limit` to 1 on zero-hop broadcasts, enqueue a
copy for retransmission, then delegate to the flooding substrate's `send`. -/
def rrSend (myNodeNum now : Nat) (retx : MeshPacket → Nat)
    (pending : PendingTable) (p : MeshPacket) : SendResult :=
  if p.want_ack then
    let p1 := if p.to_ = NODENUM_BROADCAST ∧ p.hop_limit = 0 then
                { p with hop_limit := 1 } else p
    { pending := startRetransmission myNodeNum now retx pending p1, sent := p1 }
  else
    { pending := pending, sent := p }

/-- Result of `ReliableRouter::shouldFilterReceived`: the new pending table,
the ack/nak packets emitted, and the verdict delegated from the flooding
substrate's filter. -/
structure FilterResult where
  pending : PendingTable
  acks : List AckNakPkt
  verdict : Bool
  deriving Repr

/-- `ReliableRouter::shouldFilterReceived(p)` (`ReliableRouter.cpp` lines
28-46): on overhearing our own broadcast rebroadcast, stop its
retransmissions and, if a record was removed, emit an implicit ack; in every
case return `FloodingRouter::shouldFilterReceived(p)` (modelled by the
`floodFilter` oracle). -/
def rrShouldFilterReceived (myNodeNum : Nat) (floodFilter : MeshPacket → Bool)
    (pending : PendingTable) (p : MeshPacket) : FilterResult :=
  if p.to_ = NODENUM_BROADCAST ∧ p.from_ = myNodeNum then
    let sr := stopRetransmission pending (getFrom myNodeNum p, p.id)
    { pending := sr.fst,
      acks := if sr.snd then
                [sendAckNak Routing_Error_NONE (getFrom myNodeNum p) p.id]
              else [],
      verdict := floodFilter p }
  else
    { pending := pending, acks := [], verdict := floodFilter p }

/-- Result of `ReliableRouter::sniffReceived`: the new pending table, the
acks emitted, and whether the superclass sniff was invoked. -/
structure SniffResult where
  pending : PendingTable
  acks : List AckNakPkt
  delegated : Bool
  deriving Repr

/-- The `ackId` computed in `sniffReceived`:
`((c && c->error_reason == Routing_Error_NONE) || !c) ? p->decoded.request_id : 0`. -/
def sniffAckId (p : MeshPacket) (c : Option Routing) : Nat :=
  match c with
  | some r => if r.error_reason = Routing_Error_NONE then p.decoded.request_id else 0
  | none => p.decoded.request_id

/-- The `nakId` computed in `sniffReceived`:
`(c && c->error_reason != Routing_Error_NONE) ? p->decoded.request_id : 0`. -/
def sniffNakId (p : MeshPacket) (c : Option Routing) : Nat :=
  match c with
  | some r => if r.error_reason ≠ Routing_Error_NONE then p.decoded.request_id else 0
  | none => 0

/-- `ReliableRouter::sniffReceived(p, c)` (`ReliableRouter.cpp` lines 60-93).
`currentReply` abstracts `MeshPlugin::currentReply` being non-null. -/
def rrSniffReceived (myNodeNum : Nat) (currentReply : Bool)
    (pending : PendingTable) (p : MeshPacket) (c : Option Routing) : SniffResult :=
  if p.to_ = myNodeNum then
    let acks := if p.want_ack then
                  (if currentReply then []
                   else [sendAckNak Routing_Error_NONE (getFrom myNodeNum p) p.id])
                else []
    let ackId := sniffAckId p c
    let nakId := sniffNakId p c
    let pending1 :=
      if ackId ≠ 0 then (stopRetransmission pending (p.to_, ackId)).fst
      else if nakId ≠ 0 then (stopRetransmission pending (p.to_, nakId)).fst
      else pending
    { pending := pending1, acks := acks, delegated := true }
  else
    { pending := pending, acks := [], delegated := true }

/-- Result of `ReliableRouter::doRetransmissions`: the surviving pending
table, the packets re-sent through `FloodingRouter::send`, the naks emitted
through `sendAckNak`, and the minimum sleep delay returned. -/
structure RetxResult where
  pending : PendingTable
  floodSent : List MeshPacket
  acks : List AckNakPkt
  d : Nat
  deriving DecidableEq, Repr

/-- `ReliableRouter::doRetransmissions()` (`ReliableRouter.cpp` lines
151-197), walking the table entry by entry: an entry whose `nextTxMsec` has
passed either emits a `MAX_RETRANSMIT` nak and is erased (when
`numRetransmissions == 0`) or is re-sent through the flooding substrate with
`numRetransmissions` decremented and a fresh `nextTxMsec`; surviving entries
contribute `nextTxMsec - now` to the minimum delay (initially `INT32_MAX`). -/
def doRetransmissions (myNodeNum now : Nat) (retx : MeshPacket → Nat) :
    PendingTable → RetxResult
  | [] => { pending := [], floodSent := [], acks := [], d := INT32_MAX }
  | (key, pp) :: rest =>
    let r := doRetransmissions myNodeNum now retx rest
    if pp.nextTxMsec ≤ now then
      if pp.numRetransmissions = 0 then
        { pending := r.pending, floodSent := r.floodSent,
          acks := sendAckNak Routing_Error_MAX_RETRANSMIT
                    (getFrom myNodeNum pp.packet) pp.packet.id :: r.acks,
          d := r.d }
      else
        let pp1 := setNextTx now retx
                     { pp with numRetransmissions := pp.numRetransmissions - 1 }
        { pending := (key, pp1) :: r.pending,
          floodSent := pp.packet :: r.floodSent,
          acks := r.acks,
          d := min (pp1.nextTxMsec - now) r.d }
    else
      { pending := (key, pp) :: r.pending, floodSent := r.floodSent,
        acks := r.acks, d := min (pp.nextTxMsec - now) r.d }

/-- The pending-table invariant of claim C8: every entry is keyed by its own
packet's `(from, id)` and holds fewer than `NUM_RETRANSMISSIONS` remaining
retransmissions. -/
def PendingInv (pend : PendingTable) : Prop :=
  ∀ e ∈ pend, e.fst = (e.snd.packet.from_, e.snd.packet.id)
    ∧ e.snd.numRetransmissions < NUM_RETRANSMISSIONS

/-- Pending tables reachable from the empty table by any sequence of the
reliable router's operations (each with arbitrary packets, times, oracles
and routing records). -/
inductive Reach (my : Nat) : PendingTable → Prop where
  | empty : Reach my []
  | send_ : ∀ (pend : PendingTable) (now : Nat) (retx : MeshPacket → Nat)
      (p : MeshPacket), Reach my pend → Reach my (rrSend my now retx pend p).pending
  | startR : ∀ (pend : PendingTable) (now : Nat) (retx : MeshPacket → Nat)
      (p : MeshPacket), Reach my pend →
      Reach my (startRetransmission my now retx pend p)
  | stopR : ∀ (pend : PendingTable) (key : GlobalPacketId), Reach my pend →
      Reach my (stopRetransmission pend key).fst
  | filterR : ∀ (pend : PendingTable) (ff : MeshPacket → Bool) (p : MeshPacket),
      Reach my pend → Reach my (rrShouldFilterReceived my ff pend p).pending
  | sniffR : ∀ (pend : PendingTable) (cr : Bool) (p : MeshPacket)
      (c : Option Routing), Reach my pend →
      Reach my (rrSniffReceived my cr pend p c).pending
  | retxR : ∀ (pend : PendingTable) (now : Nat) (retx : MeshPacket → Nat),
      Reach my pend → Reach my (doRetransmissions my now retx pend).pending

/-! ## Node database -/

/-- `NodeDB.cpp`, `#define NUM_ONLINE_SECS (60 * 2)` (its comment reads
"2 hrs to consider someone offline", yet the expression evaluates to 120
seconds). -/
def NUM_ONLINE_SECS : Nat := 60 * 2

/-- Model of `Position`, restricted to the fields the claims read or write. -/
structure Position where
  latitude_i : Int
  longitude_i : Int
  time : Nat
  battery_level : Nat
  deriving DecidableEq, Repr

/-- Model of `User`: only `macaddr` matters to the claims. -/
structure User where
  macaddr : List Nat
  deriving DecidableEq, Repr

/-- Model of `NodeInfo`, restricted to the fields the claims read or write. -/
structure NodeInfo where
  num : Nat
  user : User
  position : Position
  has_position : Bool
  deriving DecidableEq, Repr

/-- The live directory `node_db[0 .. node_db_count)`, as a list. -/
abbrev NodeList := List NodeInfo

/-- `NodeDB::getNode`: linear scan for the record with `num == n`. -/
def getNode (nodes : NodeList) (n : Nat) : Option NodeInfo :=
  nodes.find? (fun i => decide (i.num = n))

/-- The zero-initialised record `getOrCreateNode` appends (`memset` to zero,
then `num = n`). -/
def blankNode (n : Nat) : NodeInfo :=
  { num := n, user := { macaddr := List.replicate 6 0 },
    position := { latitude_i := 0, longitude_i := 0, time := 0, battery_level := 0 },
    has_position := false }

/-- Interpret a `Nat` holding a `uint32_t` bit pattern as the C `int` it casts
to (`(int)(now - last_seen)` in `sinceLastSeen`). -/
def toInt32 (x : Nat) : Int :=
  if x % 4294967296 < 2147483648 then ((x % 4294967296 : Nat) : Int)
  else ((x % 4294967296 : Nat) : Int) - 4294967296

/-- `uint32_t` subtraction `a - b` (wrapping). -/
def u32sub (a b : Nat) : Nat :=
  (a % 4294967296 + 4294967296 - b % 4294967296) % 4294967296

/-- `sinceLastSeen(n)` (`NodeDB.cpp` lines 332-342): seconds since
`n->position.time`, computed as `(int)(now - last_seen)` and clamped at zero
for clocks that run behind.  `getTime()` is the explicit parameter `now`. -/
def sinceLastSeen (now : Nat) (n : NodeInfo) : Nat :=
  let delta := toInt32 (u32sub now n.position.time)
  if delta < 0 then 0 else delta.toNat

/-- `NodeDB::getNumOnlineNodes` (`NodeDB.cpp` lines 346-356): count the
records whose `sinceLastSeen` is below `NUM_ONLINE_SECS`. -/
def getNumOnlineNodes (now : Nat) (nodes : NodeList) : Nat :=
  (nodes.filter (fun n => decide (sinceLastSeen now n < NUM_ONLINE_SECS))).length

/-- The record-level merge performed by `NodeDB::updatePosition` (`NodeDB.cpp`
lines 362-382) on the found-or-created record: `position.time` only when unset
locally and set in `p`; `battery_level` only when non-zero in `p`; the two
coordinates together when either is non-zero; `has_position` unconditionally. -/
def updatePositionRec (info : NodeInfo) (p : Position) : NodeInfo :=
  let pos0 := info.position
  let pos1 := if pos0.time = 0 ∧ p.time ≠ 0 then { pos0 with time := p.time } else pos0
  let pos2 := if p.battery_level ≠ 0 then { pos1 with battery_level := p.battery_level }
              else pos1
  let pos3 := if p.latitude_i ≠ 0 ∨ p.longitude_i ≠ 0 then
                { pos2 with latitude_i := p.latitude_i, longitude_i := p.longitude_i }
              else pos2
  { info with position := pos3, has_position := true }

/-- Apply `f` to the first record with `num = nodeId` (the record `getNode`
returns), leaving every other record alone. -/
def updateFirst (nodes : NodeList) (nodeId : Nat) (f : NodeInfo → NodeInfo) :
    NodeList :=
  match nodes with
  | [] => []
  | i :: rest =>
    if i.num = nodeId then f i :: rest else i :: updateFirst rest nodeId f

/-- `NodeDB::updatePosition(nodeId, p)` at directory level: find-or-create the
record (capacity checking by `assert` is outside the model), then merge. -/
def updatePosition (nodes : NodeList) (nodeId : Nat) (p : Position) : NodeList :=
  let nodes1 := if (getNode nodes nodeId).isSome then nodes
                else nodes ++ [blankNode nodeId]
  updateFirst nodes1 nodeId (fun i => updatePositionRec i p)

/-! ## Node number selection -/

/-- The MAC-derived candidate of `pickNewNodeNum`:
`(mac[2] << 24) | (mac[3] << 16) | (mac[4] << 8) | mac[5]` for MAC bytes
below 256 (disjoint bit ranges, so `|` is `+`). -/
def macCandidate (m2 m3 m4 m5 : Nat) : Nat :=
  m2 * 16777216 + m3 * 65536 + m4 * 256 + m5

/-- The provisional candidate of `pickNewNodeNum` before the conflict loop:
the stored `my_node_num` if non-zero, else the MAC-derived value, clamped
away from broadcast and the reserved range. -/
def pickCandidate (myNum m2 m3 m4 m5 : Nat) : Nat :=
  let r0 := if myNum = 0 then macCandidate m2 m3 m4 m5 else myNum
  if r0 = NODENUM_BROADCAST ∨ r0 < NUM_RESERVED then NUM_RESERVED else r0

/-- The continuation condition of `pickNewNodeNum`'s conflict loop:
`(found = getNode(r)) && memcmp(found->user.macaddr, owner.macaddr, ...)`. -/
def pickCont (nodes : NodeList) (ownerMac : List Nat) (r : Nat) : Bool :=
  match getNode nodes r with
  | none => false
  | some found => decide (found.user.macaddr ≠ ownerMac)

/-- The conflict loop of `pickNewNodeNum`: while the directory holds a record
with `num == r` whose MAC differs from `owner.macaddr`, take the next value
from the random stream `rs` (`random(NUM_RESERVED, NODENUM_BROADCAST)` is an
external source, modelled as the list `rs`; `none` means the stream ran dry
before the loop exited). -/
def pickLoop (nodes : NodeList) (ownerMac : List Nat) :
    List Nat → Nat → Option Nat
  | rs, r =>
    if pickCont nodes ownerMac r then
      match rs with
      | [] => none
      | n :: rest => pickLoop nodes ownerMac rest n
    else some r

/-- `NodeDB::pickNewNodeNum` (`NodeDB.cpp` lines 222-241): the resolved node
number, given the stored `my_node_num`, the MAC bytes, the directory and the
random stream. -/
def pickNewNodeNum (nodes : NodeList) (ownerMac : List Nat)
    (myNum m2 m3 m4 m5 : Nat) (rs : List Nat) : Option Nat :=
  pickLoop nodes ownerMac rs (pickCandidate myNum m2 m3 m4 m5)

/-! ## Critical errors -/

/-- `CriticalErrorCode_None` protobuf enum value. -/
def CriticalErrorCode_None : Nat := 0

/-- The error-reporting fields of `MyNodeInfo` (the only `MyNodeInfo` fields
claims C10 touches). -/
structure MyNodeErrors where
  error_code : Nat
  error_address : Nat
  error_count : Nat
  deriving DecidableEq, Repr

/-- `recordCriticalError(code, address)` (`NodeDB.cpp` lines 458-469): store
the code and address and bump `error_count` (a `uint32_t`, hence the modular
increment). -/
def recordCriticalError (code address : Nat) (m : MyNodeErrors) : MyNodeErrors :=
  { error_code := code, error_address := address,
    error_count := (m.error_count + 1) % 4294967296 }

/-- The error-field assignments of `NodeDB::init` (`NodeDB.cpp` lines
173-175), executed after `loadFromDisk`: only show errors from this boot, so
clear `error_code` and `error_address`; `error_count` is not touched. -/
def initClearErrorFields (m : MyNodeErrors) : MyNodeErrors :=
  { m with error_code := CriticalErrorCode_None, error_address := 0 }

/-! ## Persistent device state -/

/-- `#define DEVICESTATE_CUR_VER 11` (`NodeDB.cpp`). -/
def DEVICESTATE_CUR_VER : Nat := 11

/-- `#define DEVICESTATE_MIN_VER DEVICESTATE_CUR_VER`. -/
def DEVICESTATE_MIN_VER : Nat := DEVICESTATE_CUR_VER

/-- Model of `DeviceState` for the load/save claims: the `version` and
`no_save` fields the code branches on, plus an opaque `payload` standing for
every other serialised field. -/
structure DeviceState where
  version : Nat
  no_save : Bool
  payload : Nat
  deriving DecidableEq, Repr

/-- Calls `loadFromDisk` makes that the load claims observe:
`installDefaultDeviceState` and `recordCriticalError` (both defined in
`NodeDB.cpp`). -/
inductive LoadCall where
  | installedDefault : LoadCall
  | recordedCriticalError : LoadCall
  deriving DecidableEq, Repr

/-- `NodeDB::loadFromDisk` (`NodeDB.cpp` lines 246-282).  The filesystem and
protobuf decoder are abstracted into `disk`: `none` when `/db.proto` does not
open, `some none` when it opens but `pb_decode` fails, `some (some d)` when
it decodes to `d`.  `dflt` is the state `installDefaultDeviceState` would
install.  Returns the resulting in-memory state and the recorded calls. -/
def loadFromDisk (disk : Option (Option DeviceState)) (cur dflt : DeviceState) :
    DeviceState × List LoadCall :=
  match disk with
  | none => (cur, [])
  | some none => (dflt, [LoadCall.installedDefault])
  | some (some d) =>
    if d.version < DEVICESTATE_MIN_VER then (dflt, [LoadCall.installedDefault])
    else (d, [])

/-- A file's contents: a device state serialised whole, or the partial bytes
left behind by a failed `pb_encode`. -/
inductive FileBlob where
  | good : DeviceState → FileBlob
  | corrupt : FileBlob
  deriving DecidableEq, Repr

/-- The two fixed paths `/db.proto` and `/db.proto.tmp`. -/
structure Fs where
  dbproto : Option FileBlob
  dbprototmp : Option FileBlob
  deriving DecidableEq, Repr

/-- Successful filesystem operations `saveToDisk` performs, in order. -/
inductive FsOp where
  | openWriteTmp : FsOp
  | closeFile : FsOp
  | removeProto : FsOp
  | renameTmpToProto : FsOp
  deriving DecidableEq, Repr

/-- Result of `NodeDB::saveToDisk`: the in-memory state, the filesystem, and
the successful file operations. -/
structure SaveResult where
  state : DeviceState
  fs : Fs
  ops : List FsOp
  deriving DecidableEq, Repr

/-- `NodeDB::saveToDisk` (`NodeDB.cpp` lines 284-321).  `openOk` abstracts
`FS.open(preftmp, FILE_O_WRITE)` succeeding and `encodeOk` abstracts
`pb_encode` succeeding.  With `no_save` set nothing happens; a failed open
logs and returns; a failed encode leaves partial bytes in the staging file
and the old `/db.proto` untouched; success closes, removes `/db.proto` and
renames the staging file over it.  Note the `version` stamp sits inside the
successful-open branch. -/
def saveToDisk (openOk encodeOk : Bool) (ds : DeviceState) (fs : Fs) : SaveResult :=
  if ds.no_save then { state := ds, fs := fs, ops := [] }
  else if openOk then
    let ds1 := { ds with version := DEVICESTATE_CUR_VER }
    if encodeOk then
      { state := ds1,
        fs := { dbproto := some (FileBlob.good ds1), dbprototmp := none },
        ops := [FsOp.openWriteTmp, FsOp.closeFile, FsOp.removeProto,
                FsOp.renameTmpToProto] }
    else
      { state := ds1,
        fs := { fs with dbprototmp := some FileBlob.corrupt },
        ops := [FsOp.openWriteTmp, FsOp.closeFile] }
  else
    { state := ds, fs := fs, ops := [] }

/-! ## Concrete fixtures used by witnesses and counterexamples -/

/-- A concrete want-ack packet (`from = 0x1234`, `id = 0xBB`). -/
def cpkt : MeshPacket :=
  { from_ := 4660, to_ := 22136, id := 187, hop_limit := 3, want_ack := true,
    decoded := { request_id := 0 } }

/-- A concrete retransmission-interval oracle: always 1000 ms. -/
def retx0 : MeshPacket → Nat := fun _ => 1000

/-! ## Theorems -/

/-- **C2.** `shouldFilterReceived` on a packet that is a rebroadcast of our
own broadcast (`p.to == NODENUM_BROADCAST`, `p.from == my_node_num`) stops
retransmission under `(p.from, p.id)` and emits exactly one
`Routing_Error_NONE` ack addressed to ourselves with `request_id = p.id` iff
a pending record was removed; in every case the verdict is the flooding
substrate's filter decision for `p`. -/
theorem c2_implicit_ack_on_rebroadcast (my : Nat) (floodFilter : MeshPacket → Bool)
    (pending : PendingTable) (p : MeshPacket) :
    (p.to_ = NODENUM_BROADCAST → p.from_ = my →
      (rrShouldFilterReceived my floodFilter pending p).pending
        = (stopRetransmission pending (p.from_, p.id)).fst
      ∧ (rrShouldFilterReceived my floodFilter pending p).acks
        = (if (stopRetransmission pending (p.from_, p.id)).snd then
             [sendAckNak Routing_Error_NONE my p.id] else []))
    ∧ (rrShouldFilterReceived my floodFilter pending p).verdict = floodFilter p := by
  constructor
  · intro h1 h2
    have hg : getFrom my p = p.from_ := by
      unfold getFrom; split <;> omega
    simp [rrShouldFilterReceived, h1, h2, hg]
  · unfold rrShouldFilterReceived
    split <;> rfl

/-- Witness for C2 at a concrete input: a table holding `cpkt`'s record, the
matching rebroadcast arrives, the record is removed and one ack to ourselves
is emitted. -/
theorem c2_implicit_ack_on_rebroadcast_witness :
    (rrShouldFilterReceived 4660 (fun _ => false)
        [((4660, 187), { packet := cpkt, nextTxMsec := 1000, numRetransmissions := 2 })]
        { from_ := 4660, to_ := NODENUM_BROADCAST, id := 187, hop_limit := 2,
          want_ack := false, decoded := { request_id := 0 } }).pending = []
    ∧ (rrShouldFilterReceived 4660 (fun _ => false)
        [((4660, 187), { packet := cpkt, nextTxMsec := 1000, numRetransmissions := 2 })]
        { from_ := 4660, to_ := NODENUM_BROADCAST, id := 187, hop_limit := 2,
          want_ack := false, decoded := { request_id := 0 } }).acks
      = [sendAckNak Routing_Error_NONE 4660 187] := by
  have h := (c2_implicit_ack_on_rebroadcast 4660 (fun _ => false)
      [((4660, 187), { packet := cpkt, nextTxMsec := 1000, numRetransmissions := 2 })]
      { from_ := 4660, to_ := NODENUM_BROADCAST, id := 187, hop_limit := 2,
        want_ack := false, decoded := { request_id := 0 } }).1 rfl rfl
  refine ⟨?_, ?_⟩
  · rw [h.1]; decide
  · rw [h.2]; decide

/-- **C3.** `sniffReceived` on a packet addressed to us: an ack goes to the
original sender iff the packet wants one and no plugin reply is queued; the
ack/nak classification follows the routing record; a non-zero classification
stops retransmission under `(p.to, id)`; packets not addressed to us change
nothing; the substrate's sniff runs in all cases. -/
theorem c3_sniff_received (my : Nat) (currentReply : Bool)
    (pending : PendingTable) (p : MeshPacket) (c : Option Routing) :
    (p.to_ = my →
      (rrSniffReceived my currentReply pending p c).acks
        = (if p.want_ack ∧ currentReply = false then
             [sendAckNak Routing_Error_NONE (getFrom my p) p.id] else [])
      ∧ ((c = none ∨ c = some { error_reason := Routing_Error_NONE }) →
           sniffAckId p c = p.decoded.request_id ∧ sniffNakId p c = 0)
      ∧ (∀ rt, c = some rt → rt.error_reason ≠ Routing_Error_NONE →
           sniffAckId p c = 0 ∧ sniffNakId p c = p.decoded.request_id)
      ∧ (sniffAckId p c ≠ 0 →
           (rrSniffReceived my currentReply pending p c).pending
             = (stopRetransmission pending (p.to_, sniffAckId p c)).fst)
      ∧ (sniffNakId p c ≠ 0 →
           (rrSniffReceived my currentReply pending p c).pending
             = (stopRetransmission pending (p.to_, sniffNakId p c)).fst)
      ∧ (sniffAckId p c = 0 → sniffNakId p c = 0 →
           (rrSniffReceived my currentReply pending p c).pending = pending))
    ∧ (p.to_ ≠ my →
        (rrSniffReceived my currentReply pending p c).acks = []
        ∧ (rrSniffReceived my currentReply pending p c).pending = pending)
    ∧ (rrSniffReceived my currentReply pending p c).delegated = true := by
  refine ⟨fun h1 => ?_, fun h1 => ?_, ?_⟩
  · refine ⟨?_, ?_, ?_, ?_, ?_, ?_⟩
    · simp only [rrSniffReceived, h1, if_pos rfl]
      rcases p.want_ack with _ | _ <;> rcases currentReply with _ | _ <;> simp
    · rintro (rfl | rfl) <;> simp [sniffAckId, sniffNakId]
    · rintro rt rfl hne
      simp [sniffAckId, sniffNakId, hne]
    · intro ha
      simp only [rrSniffReceived, h1, if_pos rfl]
      simp [ha]
    · intro hn
      have ha : sniffAckId p c = 0 := by
        rcases c with _ | rt
        · simp [sniffNakId] at hn
        · by_cases he : rt.error_reason = Routing_Error_NONE
          · exact absurd (by simp [sniffNakId, he]) hn
          · simp [sniffAckId, he]
      simp only [rrSniffReceived, h1, if_pos rfl]
      simp [ha, hn]
    · intro ha hn
      simp only [rrSniffReceived, h1, if_pos rfl]
      simp [ha, hn]
  · simp [rrSniffReceived, h1]
  · unfold rrSniffReceived
    split <;> rfl

/-- Witness for C3 at a concrete input: a nak (`error_reason = 5`) for our
pending packet `(4660, 187)` arrives and removes the record. -/
theorem c3_sniff_received_witness :
    (rrSniffReceived 4660 false
        [((4660, 187), { packet := cpkt, nextTxMsec := 1000, numRetransmissions := 2 })]
        { from_ := 22136, to_ := 4660, id := 99, hop_limit := 2, want_ack := false,
          decoded := { request_id := 187 } }
        (some { error_reason := Routing_Error_MAX_RETRANSMIT })).pending = [] := by
  have h := ((c3_sniff_received 4660 false
      [((4660, 187), { packet := cpkt, nextTxMsec := 1000, numRetransmissions := 2 })]
      { from_ := 22136, to_ := 4660, id := 99, hop_limit := 2, want_ack := false,
        decoded := { request_id := 187 } }
      (some { error_reason := Routing_Error_MAX_RETRANSMIT })).1 rfl).2.2.2.2.1
      (by decide)
  rw [h]; decide

/-- **C4 (code evaluation at the failing input).** `NUM_ONLINE_SECS` is
`60 * 2 = 120` seconds, not the 7200 seconds the claim states: a node last
heard from 3600 s ago (one hour) is *not* counted by
`getNumOnlineNodes`, though `3600 < 7200`. -/
theorem c4_online_nodes_threshold_eval :
    NUM_ONLINE_SECS = 120
    ∧ sinceLastSeen 4000
        { num := 9, user := { macaddr := [1, 2, 3, 4, 5, 6] },
          position := { latitude_i := 0, longitude_i := 0, time := 400,
                        battery_level := 0 },
          has_position := true } = 3600
    ∧ getNumOnlineNodes 4000
        [{ num := 9, user := { macaddr := [1, 2, 3, 4, 5, 6] },
           position := { latitude_i := 0, longitude_i := 0, time := 400,
                         battery_level := 0 },
           has_position := true }] = 0
    ∧ 3600 < 7200 := by
  refine ⟨rfl, ?_, ?_, by omega⟩ <;> decide

/-- **C5.** `updatePosition` merge semantics: `time` only when locally unset
and incoming non-zero, `battery_level` only when incoming non-zero, the two
coordinates together when either is non-zero, everything else untouched,
`has_position` set; and the spec's concrete partial-merge example. -/
theorem c5_update_position_merge :
    (∀ (info : NodeInfo) (p : Position),
      (info.position.time = 0 → p.time ≠ 0 →
        (updatePositionRec info p).position.time = p.time)
      ∧ (info.position.time ≠ 0 ∨ p.time = 0 →
        (updatePositionRec info p).position.time = info.position.time)
      ∧ (p.battery_level ≠ 0 →
        (updatePositionRec info p).position.battery_level = p.battery_level)
      ∧ (p.battery_level = 0 →
        (updatePositionRec info p).position.battery_level
          = info.position.battery_level)
      ∧ (p.latitude_i ≠ 0 ∨ p.longitude_i ≠ 0 →
        (updatePositionRec info p).position.latitude_i = p.latitude_i
        ∧ (updatePositionRec info p).position.longitude_i = p.longitude_i)
      ∧ (p.latitude_i = 0 → p.longitude_i = 0 →
        (updatePositionRec info p).position.latitude_i = info.position.latitude_i
        ∧ (updatePositionRec info p).position.longitude_i
            = info.position.longitude_i)
      ∧ (updatePositionRec info p).has_position = true
      ∧ (updatePositionRec info p).num = info.num
      ∧ (updatePositionRec info p).user = info.user)
    ∧ updatePositionRec
        { num := 7, user := { macaddr := [1, 2, 3, 4, 5, 6] },
          position := { latitude_i := 50, longitude_i := 60, time := 1000,
                        battery_level := 80 },
          has_position := true }
        { latitude_i := 0, longitude_i := 0, time := 0, battery_level := 75 }
      = { num := 7, user := { macaddr := [1, 2, 3, 4, 5, 6] },
          position := { latitude_i := 50, longitude_i := 60, time := 1000,
                        battery_level := 75 },
          has_position := true } := by
  constructor
  · intro info p
    unfold updatePositionRec
    refine ⟨fun h1 h2 => ?_, fun h1 => ?_, fun h1 => ?_, fun h1 => ?_,
            fun h1 => ?_, fun h1 h2 => ?_, rfl, rfl, rfl⟩ <;>
      (dsimp only; repeat' split) <;> simp_all
  · decide

/-- Witness for C5 at a concrete input: incoming report with zero time and a
fresh battery level against a record with known time. -/
theorem c5_update_position_merge_witness :
    (updatePositionRec
        { num := 7, user := { macaddr := [1, 2, 3, 4, 5, 6] },
          position := { latitude_i := 50, longitude_i := 60, time := 1000,
                        battery_level := 80 },
          has_position := true }
        { latitude_i := 0, longitude_i := 0, time := 0,
          battery_level := 75 }).position.time = 1000
    ∧ (updatePositionRec
        { num := 7, user := { macaddr := [1, 2, 3, 4, 5, 6] },
          position := { latitude_i := 50, longitude_i := 60, time := 1000,
                        battery_level := 80 },
          has_position := true }
        { latitude_i := 0, longitude_i := 0, time := 0,
          battery_level := 75 }).position.battery_level = 75 := by
  have h := (c5_update_position_merge.1
      { num := 7, user := { macaddr := [1, 2, 3, 4, 5, 6] },
        position := { latitude_i := 50, longitude_i := 60, time := 1000,
                      battery_level := 80 },
        has_position := true }
      { latitude_i := 0, longitude_i := 0, time := 0, battery_level := 75 })
  exact ⟨h.2.1 (by simp), h.2.2.1 (by simp)⟩

/-- **C10.** `recordCriticalError` stores the code and address and bumps
`error_count` by exactly one (a modular `uint32_t` increment); the boot-time
error-field reset in `NodeDB::init` clears only the code and the address, so
a persisted `error_count` accumulates across boots. -/
theorem c10_error_count_accumulates :
    (∀ (m : MyNodeErrors) (code address : Nat),
      (recordCriticalError code address m).error_code = code
      ∧ (recordCriticalError code address m).error_address = address
      ∧ (recordCriticalError code address m).error_count
          = (m.error_count + 1) % 4294967296
      ∧ (m.error_count + 1 < 4294967296 →
          (recordCriticalError code address m).error_count = m.error_count + 1))
    ∧ (∀ m : MyNodeErrors,
      (initClearErrorFields m).error_code = CriticalErrorCode_None
      ∧ (initClearErrorFields m).error_address = 0
      ∧ (initClearErrorFields m).error_count = m.error_count)
    ∧ (∀ (m : MyNodeErrors) (code address : Nat),
      (initClearErrorFields (recordCriticalError code address m)).error_count
        = (m.error_count + 1) % 4294967296) := by
  refine ⟨fun m code address => ⟨rfl, rfl, rfl, fun h => ?_⟩,
          fun m => ⟨rfl, rfl, rfl⟩, fun m code address => rfl⟩
  simp only [recordCriticalError]
  exact Nat.mod_eq_of_lt h

/-- Witness for C10 at a concrete input: an error recorded on count 41
yields count 42, which survives the boot-time reset. -/
theorem c10_error_count_accumulates_witness :
    (recordCriticalError 3 4096
        { error_code := 0, error_address := 0, error_count := 41 }).error_count = 42
    ∧ (initClearErrorFields (recordCriticalError 3 4096
        { error_code := 0, error_address := 0, error_count := 41 })).error_code
      = CriticalErrorCode_None := by
  refine ⟨?_, ?_⟩
  · exact (c10_error_count_accumulates.1
      { error_code := 0, error_address := 0, error_count := 41 } 3 4096).2.2.2
      (by decide)
  · exact ((c10_error_count_accumulates.2.1
      (recordCriticalError 3 4096
        { error_code := 0, error_address := 0, error_count := 41 }))).1

/-- **C6 (counterexample).** When `/db.proto` is present but deserialization
fails, `loadFromDisk` reinstalls the default state but makes *no*
`recordCriticalError` call — the decode-failure branch only logs (the code
carries a `FIXME - report failure to phone`), contradicting the claim that
the error is surfaced via `record_critical_error`. -/
theorem c6_load_no_critical_error_counterexample :
    (loadFromDisk (some none) { version := 11, no_save := false, payload := 1 }
        { version := 0, no_save := false, payload := 2 }).fst
      = { version := 0, no_save := false, payload := 2 }
    ∧ (loadFromDisk (some none) { version := 11, no_save := false, payload := 1 }
        { version := 0, no_save := false, payload := 2 }).snd
      = [LoadCall.installedDefault]
    ∧ LoadCall.recordedCriticalError ∉
        (loadFromDisk (some none) { version := 11, no_save := false, payload := 1 }
          { version := 0, no_save := false, payload := 2 }).snd := by
  refine ⟨rfl, rfl, by decide⟩

/-- **C6 (amended).** `loadFromDisk`: absent file leaves the pre-existing
state; decode failure reinstalls the default state (the failure is only
logged — no `recordCriticalError` call); a decoded state below
`DEVICESTATE_MIN_VER` (= 11) is discarded for the default; otherwise the
loaded state is accepted. -/
theorem c6_load_from_disk (disk : Option (Option DeviceState))
    (cur dflt d : DeviceState) :
    (disk = none → loadFromDisk disk cur dflt = (cur, []))
    ∧ (disk = some none →
        loadFromDisk disk cur dflt = (dflt, [LoadCall.installedDefault])
        ∧ LoadCall.recordedCriticalError ∉ (loadFromDisk disk cur dflt).snd)
    ∧ (disk = some (some d) → d.version < DEVICESTATE_MIN_VER →
        loadFromDisk disk cur dflt = (dflt, [LoadCall.installedDefault]))
    ∧ (disk = some (some d) → DEVICESTATE_MIN_VER ≤ d.version →
        loadFromDisk disk cur dflt = (d, [])) := by
  refine ⟨fun h => ?_, fun h => ?_, fun h hv => ?_, fun h hv => ?_⟩
  · subst h; rfl
  · subst h; refine ⟨rfl, ?_⟩; simp [loadFromDisk]
  · subst h; simp [loadFromDisk, hv]
  · subst h; simp [loadFromDisk, Nat.not_lt.mpr hv]

/-- Witness for C6 at a concrete input: a decoded state with version 3 is
discarded for the default. -/
theorem c6_load_from_disk_witness :
    loadFromDisk (some (some { version := 3, no_save := false, payload := 9 }))
        { version := 11, no_save := false, payload := 1 }
        { version := 0, no_save := false, payload := 2 }
      = ({ version := 0, no_save := false, payload := 2 }, [LoadCall.installedDefault]) := by
  exact (c6_load_from_disk
      (some (some { version := 3, no_save := false, payload := 9 }))
      { version := 11, no_save := false, payload := 1 }
      { version := 0, no_save := false, payload := 2 }
      { version := 3, no_save := false, payload := 9 }).2.2.1 rfl (by decide)

/-- **C7 (counterexample).** The `version := DEVICESTATE_CUR_VER` stamp sits
inside the successful-open branch of `saveToDisk`: with `no_save` clear but
the staging-file open failing, the in-memory version stays 5, contradicting
the claim that `saveToDisk` stamps the version whenever `no_save` is not
set. -/
theorem c7_save_stamp_counterexample :
    ({ version := 5, no_save := false, payload := 7 } : DeviceState).no_save = false
    ∧ (saveToDisk false true { version := 5, no_save := false, payload := 7 }
        { dbproto := some (FileBlob.good { version := 11, no_save := false, payload := 3 }),
          dbprototmp := none }).state.version = 5
    ∧ (saveToDisk false true { version := 5, no_save := false, payload := 7 }
        { dbproto := some (FileBlob.good { version := 11, no_save := false, payload := 3 }),
          dbprototmp := none }).state.version ≠ DEVICESTATE_CUR_VER := by
  refine ⟨rfl, rfl, by decide⟩

/-- **C7 (amended).** `saveToDisk`: with `no_save` set nothing touches the
filesystem; with a failed staging-file open nothing further happens (in
particular no version stamp) and `/db.proto` is intact; once the open
succeeds the in-memory state is stamped `version := DEVICESTATE_CUR_VER`
(= 11) and serialized to `/db.proto.tmp`; on serialization failure the close
is the last file operation and the prior `/db.proto` is intact; on success
`/db.proto` is removed and `/db.proto.tmp` renamed over it. -/
theorem c7_save_to_disk (openOk encodeOk : Bool) (ds : DeviceState) (fs : Fs) :
    (ds.no_save = true → saveToDisk openOk encodeOk ds fs
        = { state := ds, fs := fs, ops := [] })
    ∧ (ds.no_save = false → openOk = false →
        saveToDisk openOk encodeOk ds fs = { state := ds, fs := fs, ops := [] })
    ∧ (ds.no_save = false → openOk = true →
        (saveToDisk openOk encodeOk ds fs).state
          = { ds with version := DEVICESTATE_CUR_VER }
        ∧ (encodeOk = false →
            (saveToDisk openOk encodeOk ds fs).fs.dbproto = fs.dbproto
            ∧ (saveToDisk openOk encodeOk ds fs).ops
                = [FsOp.openWriteTmp, FsOp.closeFile])
        ∧ (encodeOk = true →
            (saveToDisk openOk encodeOk ds fs).fs
              = { dbproto := some (FileBlob.good { ds with version := DEVICESTATE_CUR_VER }),
                  dbprototmp := none }
            ∧ (saveToDisk openOk encodeOk ds fs).ops
                = [FsOp.openWriteTmp, FsOp.closeFile, FsOp.removeProto,
                   FsOp.renameTmpToProto])) := by
  refine ⟨fun h => ?_, fun h ho => ?_, fun h ho => ?_⟩
  · simp [saveToDisk, h]
  · subst ho; simp [saveToDisk, h]
  · subst ho
    refine ⟨?_, fun he => ?_, fun he => ?_⟩
    · rcases encodeOk with _ | _ <;> simp [saveToDisk, h]
    · subst he; simp [saveToDisk, h]
    · subst he; simp [saveToDisk, h]

/-- Witness for C7 at a concrete input: a successful save stamps version 11
and atomically replaces `/db.proto`. -/
theorem c7_save_to_disk_witness :
    (saveToDisk true true { version := 5, no_save := false, payload := 7 }
        { dbproto := some (FileBlob.good { version := 11, no_save := false, payload := 3 }),
          dbprototmp := none }).state
      = { version := 11, no_save := false, payload := 7 }
    ∧ (saveToDisk true true { version := 5, no_save := false, payload := 7 }
        { dbproto := some (FileBlob.good { version := 11, no_save := false, payload := 3 }),
          dbprototmp := none }).ops
      = [FsOp.openWriteTmp, FsOp.closeFile, FsOp.removeProto, FsOp.renameTmpToProto] := by
  have h := (c7_save_to_disk true true { version := 5, no_save := false, payload := 7 }
      { dbproto := some (FileBlob.good { version := 11, no_save := false, payload := 3 }),
        dbprototmp := none }).2.2 rfl rfl
  exact ⟨h.1, (h.2.2 rfl).2⟩

/-- A record found by `getNode` carries the number it was looked up under. -/
theorem getNode_num_eq {nodes : NodeList} {r : Nat} {f : NodeInfo}
    (h : getNode nodes r = some f) : f.num = r := by
  have := List.find?_some h
  simpa using this

/-- The provisional candidate avoids broadcast and the reserved range. -/
theorem pickCandidate_bounds (myNum m2 m3 m4 m5 : Nat)
    (hmy : myNum < 4294967296) (hm2 : m2 < 256) (hm3 : m3 < 256)
    (hm4 : m4 < 256) (hm5 : m5 < 256) :
    NUM_RESERVED ≤ pickCandidate myNum m2 m3 m4 m5
    ∧ pickCandidate myNum m2 m3 m4 m5 < NODENUM_BROADCAST := by
  have hcand : (if myNum = 0 then macCandidate m2 m3 m4 m5 else myNum)
      < 4294967296 := by
    unfold macCandidate; split <;> omega
  unfold pickCandidate NUM_RESERVED NODENUM_BROADCAST
  dsimp only
  set r0 := if myNum = 0 then macCandidate m2 m3 m4 m5 else myNum with hr0
  split <;> omega

/-- Any value `pickLoop` settles on is the seed or drawn from the stream, and
falsifies the loop's continuation condition. -/
theorem pickLoop_spec {nodes : NodeList} {mac : List Nat} {rs : List Nat}
    {r res : Nat} (h : pickLoop nodes mac rs r = some res) :
    (res = r ∨ res ∈ rs) ∧ pickCont nodes mac res = false := by
  induction rs generalizing r with
  | nil =>
    rw [pickLoop] at h
    by_cases hc : pickCont nodes mac r = true
    · rw [if_pos hc] at h; cases h
    · rw [if_neg hc] at h
      simp only [Option.some.injEq] at h
      subst h
      exact ⟨Or.inl rfl, Bool.not_eq_true _ ▸ hc⟩
  | cons n rest ih =>
    rw [pickLoop] at h
    by_cases hc : pickCont nodes mac r = true
    · rw [if_pos hc] at h
      have hih := ih h
      refine ⟨Or.inr ?_, hih.2⟩
      rcases hih.1 with h1 | h1
      · exact h1 ▸ List.mem_cons_self n rest
      · exact List.mem_cons_of_mem n h1
    · rw [if_neg hc] at h
      simp only [Option.some.injEq] at h
      subst h
      exact ⟨Or.inl rfl, Bool.not_eq_true _ ▸ hc⟩

/-- **C9.** When `pickNewNodeNum` completes (its random draws, like
`random(NUM_RESERVED, NODENUM_BROADCAST)`, lie in
`[NUM_RESERVED, NODENUM_BROADCAST)`), the resolved number is neither
broadcast nor reserved; and if the provisional candidate collided with a
directory record whose MAC differs from the owner's, the resolved number
lies in `[NUM_RESERVED, NODENUM_BROADCAST)` and differs from that record's
number. -/
theorem c9_pick_new_node_num (nodes : NodeList) (ownerMac : List Nat)
    (myNum m2 m3 m4 m5 res : Nat) (rs : List Nat)
    (hmy : myNum < 4294967296) (hm2 : m2 < 256) (hm3 : m3 < 256)
    (hm4 : m4 < 256) (hm5 : m5 < 256)
    (hrs : ∀ x ∈ rs, NUM_RESERVED ≤ x ∧ x < NODENUM_BROADCAST)
    (hres : pickNewNodeNum nodes ownerMac myNum m2 m3 m4 m5 rs = some res) :
    (res ≠ NODENUM_BROADCAST ∧ NUM_RESERVED ≤ res ∧ res < NODENUM_BROADCAST)
    ∧ (∀ f, getNode nodes (pickCandidate myNum m2 m3 m4 m5) = some f →
        f.user.macaddr ≠ ownerMac → res ≠ f.num) := by
  have hspec := pickLoop_spec hres
  have hcand := pickCandidate_bounds myNum m2 m3 m4 m5 hmy hm2 hm3 hm4 hm5
  have hrange : NUM_RESERVED ≤ res ∧ res < NODENUM_BROADCAST := by
    rcases hspec.1 with h | h
    · exact h ▸ hcand
    · exact hrs res h
  refine ⟨⟨by omega, hrange⟩, fun f hf hmac => ?_⟩
  intro hres_eq
  have hnum := getNode_num_eq hf
  have hrc : res = pickCandidate myNum m2 m3 m4 m5 := by omega
  have hcont := hspec.2
  rw [hrc] at hcont
  unfold pickCont at hcont
  rw [hf] at hcont
  simp only [decide_eq_false_iff_not, ne_eq, not_not] at hcont
  exact hmac hcont

/-- Witness for C9 at a concrete input: the directory holds `{num = 66}`
with a foreign MAC, the local MAC also yields candidate 66, and the first
random draw 100 resolves the conflict. -/
theorem c9_pick_new_node_num_witness :
    pickNewNodeNum
        [{ num := 66, user := { macaddr := [10, 10, 10, 10, 10, 10] },
           position := { latitude_i := 0, longitude_i := 0, time := 0,
                         battery_level := 0 },
           has_position := false }]
        [11, 11, 11, 11, 11, 11] 0 0 0 0 66 [100] = some 100
    ∧ 100 ≠ NODENUM_BROADCAST ∧ NUM_RESERVED ≤ 100 ∧ (100 : Nat) ≠ 66 := by
  have h := c9_pick_new_node_num
      [{ num := 66, user := { macaddr := [10, 10, 10, 10, 10, 10] },
         position := { latitude_i := 0, longitude_i := 0, time := 0,
                       battery_level := 0 },
         has_position := false }]
      [11, 11, 11, 11, 11, 11] 0 0 0 0 66 100 [100]
      (by decide) (by decide) (by decide) (by decide) (by decide)
      (by decide) (by decide)
  refine ⟨by decide, h.1.1, h.1.2.1, ?_⟩
  have h66 := h.2
      { num := 66, user := { macaddr := [10, 10, 10, 10, 10, 10] },
        position := { latitude_i := 0, longitude_i := 0, time := 0,
                      battery_level := 0 },
        has_position := false }
      (by decide) (by decide)
  exact h66

/-- `startRetransmission` into an empty table yields exactly the new record,
keyed `(p.from, p.id)`, with two remaining retransmissions. -/
theorem startRetransmission_empty (my now : Nat) (retx : MeshPacket → Nat)
    (p : MeshPacket) :
    startRetransmission my now retx [] p
      = [((p.from_, p.id),
          { packet := p, nextTxMsec := now + retx p,
            numRetransmissions := NUM_RETRANSMISSIONS - 1 })] := by
  simp [startRetransmission, stopRetransmission, findPendingPacket, eraseKey,
    setNextTx, globalPacketIdOf]

/-- A due singleton entry with retries left is re-sent through the flooding
substrate, decremented and rescheduled. -/
theorem doRetransmissions_single_due (my now : Nat) (retx : MeshPacket → Nat)
    (key : GlobalPacketId) (pp : PendingPacket)
    (hdue : pp.nextTxMsec ≤ now) (hn : pp.numRetransmissions ≠ 0) :
    doRetransmissions my now retx [(key, pp)]
      = { pending := [(key, { packet := pp.packet,
                              nextTxMsec := now + retx pp.packet,
                              numRetransmissions := pp.numRetransmissions - 1 })],
          floodSent := [pp.packet], acks := [],
          d := min (now + retx pp.packet - now) INT32_MAX } := by
  rw [doRetransmissions, doRetransmissions]
  rw [if_pos hdue, if_neg hn]
  rfl

/-- A due singleton entry with no retries left emits the `MAX_RETRANSMIT`
nak to the packet's originator and is removed. -/
theorem doRetransmissions_single_exhausted (my now : Nat)
    (retx : MeshPacket → Nat) (key : GlobalPacketId) (pp : PendingPacket)
    (hdue : pp.nextTxMsec ≤ now) (hn : pp.numRetransmissions = 0) :
    doRetransmissions my now retx [(key, pp)]
      = { pending := [], floodSent := [],
          acks := [sendAckNak Routing_Error_MAX_RETRANSMIT
                    (getFrom my pp.packet) pp.packet.id],
          d := INT32_MAX } := by
  rw [doRetransmissions, doRetransmissions]
  rw [if_pos hdue, if_pos hn]

/-- **C1 (counterexample).** In a concrete run of the exhaustion scenario
(send at 0, ticks at 1000, 2000, 3000, 4000 with interval 1000 ms), the
`MAX_RETRANSMIT` nak is emitted on the *third* tick whose `next_tx_msec`
trigger has passed — the fourth tick finds the pending table already empty
and emits nothing, contradicting the claim that the nak arrives on the
fourth tick. -/
theorem c1_nak_on_third_tick_counterexample :
    (doRetransmissions 5 3000 retx0
        (doRetransmissions 5 2000 retx0
          (doRetransmissions 5 1000 retx0
            (rrSend 5 0 retx0 [] cpkt).pending).pending).pending).acks
      = [sendAckNak Routing_Error_MAX_RETRANSMIT 4660 187]
    ∧ (doRetransmissions 5 4000 retx0
        (doRetransmissions 5 3000 retx0
          (doRetransmissions 5 2000 retx0
            (doRetransmissions 5 1000 retx0
              (rrSend 5 0 retx0 [] cpkt).pending).pending).pending).pending).acks
      = [] := by
  refine ⟨by decide, by decide⟩

/-- **C1 (amended).** For a pending entry created by `send()` of a
`want_ack` packet with a non-phone originator (`p.from ≠ 0`), advancing time
past the successive `next_tx_msec` triggers with no ack received causes
exactly two retransmissions dispatched through the flooding substrate's send
(not the reliable layer's own send — the pending table keeps its single
entry rather than gaining one per retransmission), and then, on the third
expired trigger (the fourth transmission event, counting the initial send),
a nak with `error_reason = MAX_RETRANSMIT` addressed to the originator
(`to = p.from`) with `request_id = p.id`, after which the pending table is
empty. -/
theorem c1_retry_exhaustion_nak (my t0 t1 t2 t3 : Nat)
    (retx : MeshPacket → Nat) (p : MeshPacket)
    (hw : p.want_ack = true) (hf : p.from_ ≠ 0)
    (h1 : t0 + retx (rrSend my t0 retx [] p).sent ≤ t1)
    (h2 : t1 + retx (rrSend my t0 retx [] p).sent ≤ t2)
    (h3 : t2 + retx (rrSend my t0 retx [] p).sent ≤ t3) :
    (doRetransmissions my t1 retx (rrSend my t0 retx [] p).pending).floodSent
      = [(rrSend my t0 retx [] p).sent]
    ∧ (doRetransmissions my t1 retx (rrSend my t0 retx [] p).pending).acks = []
    ∧ (doRetransmissions my t2 retx
        (doRetransmissions my t1 retx
          (rrSend my t0 retx [] p).pending).pending).floodSent
      = [(rrSend my t0 retx [] p).sent]
    ∧ (doRetransmissions my t2 retx
        (doRetransmissions my t1 retx
          (rrSend my t0 retx [] p).pending).pending).acks = []
    ∧ (doRetransmissions my t3 retx
        (doRetransmissions my t2 retx
          (doRetransmissions my t1 retx
            (rrSend my t0 retx [] p).pending).pending).pending).floodSent = []
    ∧ (doRetransmissions my t3 retx
        (doRetransmissions my t2 retx
          (doRetransmissions my t1 retx
            (rrSend my t0 retx [] p).pending).pending).pending).acks
      = [sendAckNak Routing_Error_MAX_RETRANSMIT p.from_ p.id]
    ∧ (doRetransmissions my t3 retx
        (doRetransmissions my t2 retx
          (doRetransmissions my t1 retx
            (rrSend my t0 retx [] p).pending).pending).pending).pending = [] := by
  have hsent : (rrSend my t0 retx [] p).sent
      = (if p.to_ = NODENUM_BROADCAST ∧ p.hop_limit = 0 then
           { p with hop_limit := 1 } else p) := by
    simp [rrSend, hw]
  have hqf : (rrSend my t0 retx [] p).sent.from_ = p.from_ := by
    rw [hsent]; split <;> rfl
  have hqi : (rrSend my t0 retx [] p).sent.id = p.id := by
    rw [hsent]; split <;> rfl
  have hpend : (rrSend my t0 retx [] p).pending
      = [(((rrSend my t0 retx [] p).sent.from_, (rrSend my t0 retx [] p).sent.id),
          { packet := (rrSend my t0 retx [] p).sent,
            nextTxMsec := t0 + retx (rrSend my t0 retx [] p).sent,
            numRetransmissions := NUM_RETRANSMISSIONS - 1 })] := by
    conv_lhs => rw [show (rrSend my t0 retx [] p).pending
      = startRetransmission my t0 retx [] (rrSend my t0 retx [] p).sent by
        simp [rrSend, hw]]
    exact startRetransmission_empty my t0 retx (rrSend my t0 retx [] p).sent
  rw [hpend]
  rw [doRetransmissions_single_due my t1 retx _ _ h1 (by simp [NUM_RETRANSMISSIONS])]
  rw [doRetransmissions_single_due my t2 retx _ _ h2 (by simp [NUM_RETRANSMISSIONS])]
  rw [doRetransmissions_single_exhausted my t3 retx _ _ h3 (by simp [NUM_RETRANSMISSIONS])]
  refine ⟨rfl, rfl, rfl, rfl, rfl, ?_, rfl⟩
  show [sendAckNak Routing_Error_MAX_RETRANSMIT
          (getFrom my (rrSend my t0 retx [] p).sent)
          (rrSend my t0 retx [] p).sent.id] = _
  rw [hqi]
  unfold getFrom
  rw [hqf, if_neg hf]

/-- Witness for C1 at a concrete input: `cpkt` sent at time 0 with a 1000 ms
interval oracle; ticks at 1000, 2000 and 3000 produce two flood re-sends and
then the nak, leaving the table empty. -/
theorem c1_retry_exhaustion_nak_witness :
    (doRetransmissions 5 1000 retx0 (rrSend 5 0 retx0 [] cpkt).pending).floodSent
      = [cpkt]
    ∧ (doRetransmissions 5 3000 retx0
        (doRetransmissions 5 2000 retx0
          (doRetransmissions 5 1000 retx0
            (rrSend 5 0 retx0 [] cpkt).pending).pending).pending).acks
      = [sendAckNak Routing_Error_MAX_RETRANSMIT 4660 187]
    ∧ (doRetransmissions 5 3000 retx0
        (doRetransmissions 5 2000 retx0
          (doRetransmissions 5 1000 retx0
            (rrSend 5 0 retx0 [] cpkt).pending).pending).pending).pending
      = [] := by
  have h := c1_retry_exhaustion_nak 5 0 1000 2000 3000 retx0 cpkt rfl
    (by decide) (by decide) (by decide) (by decide)
  refine ⟨?_, ?_, h.2.2.2.2.2.2⟩
  · rw [h.1]; decide
  · rw [h.2.2.2.2.2.1]; decide

/-- Erasing a key preserves the pending-table invariant. -/
theorem pendingInv_eraseKey {pend : PendingTable} {key : GlobalPacketId}
    (h : PendingInv pend) : PendingInv (eraseKey pend key) :=
  fun e he => h e (List.mem_of_mem_filter he)

/-- `stopRetransmission` preserves the pending-table invariant. -/
theorem pendingInv_stop {pend : PendingTable} {key : GlobalPacketId}
    (h : PendingInv pend) : PendingInv (stopRetransmission pend key).fst := by
  unfold stopRetransmission
  split
  · exact pendingInv_eraseKey h
  · exact h

/-- `startRetransmission` preserves the pending-table invariant: the fresh
record is keyed by its own packet and starts below `NUM_RETRANSMISSIONS`. -/
theorem pendingInv_start (my now : Nat) (retx : MeshPacket → Nat)
    (p : MeshPacket) {pend : PendingTable} (h : PendingInv pend) :
    PendingInv (startRetransmission my now retx pend p) := by
  intro e he
  unfold startRetransmission at he
  dsimp only at he
  rcases List.mem_append.mp he with h1 | h1
  · exact pendingInv_eraseKey (pendingInv_stop h) e h1
  · rcases List.mem_singleton.mp h1 with rfl
    exact ⟨rfl, by simp [NUM_RETRANSMISSIONS, setNextTx]⟩

/-- `doRetransmissions` preserves the pending-table invariant: surviving
entries keep their key and packet, with `numRetransmissions` decremented at
most once. -/
theorem pendingInv_doRetx (my now : Nat) (retx : MeshPacket → Nat)
    {pend : PendingTable} (h : PendingInv pend) :
    PendingInv (doRetransmissions my now retx pend).pending := by
  induction pend with
  | nil => intro e he; cases he
  | cons hd tl ih =>
    obtain ⟨key, pp⟩ := hd
    have hhd := h (key, pp) (List.mem_cons_self _ _)
    have htl : PendingInv tl := fun e he => h e (List.mem_cons_of_mem _ he)
    have ihtl := ih htl
    rw [doRetransmissions]
    dsimp only
    split
    · split
      · exact ihtl
      · intro e he
        rcases List.mem_cons.mp he with rfl | hmem
        · refine ⟨hhd.1, ?_⟩
          have hhd2 : pp.numRetransmissions < NUM_RETRANSMISSIONS := hhd.2
          show pp.numRetransmissions - 1 < NUM_RETRANSMISSIONS
          omega
        · exact ihtl e hmem
    · intro e he
      rcases List.mem_cons.mp he with rfl | hmem
      · exact hhd
      · exact ihtl e hmem

/-- `find?` on an erased-then-appended table lands on the appended entry. -/
theorem find?_eraseKey_append (l : PendingTable) (key : GlobalPacketId)
    (pp : PendingPacket) :
    (eraseKey l key ++ [(key, pp)]).find? (fun e => decide (e.fst = key))
      = some (key, pp) := by
  induction l with
  | nil => simp [eraseKey]
  | cons hd tl ih =>
    by_cases hk : hd.fst = key
    · simp [eraseKey, hk, ih]
    · simp [eraseKey, hk, ih]

/-- **C8.** After any sequence of `send`, `startRetransmission`,
`stopRetransmission`, `shouldFilterReceived`, `sniffReceived` and
`doRetransmissions` operations starting from the empty table, every pending
entry is keyed by its own packet's `(from, id)` and holds
`numRetransmissions < NUM_RETRANSMISSIONS`; and a newly created entry holds
exactly `NUM_RETRANSMISSIONS - 1 = 2`. -/
theorem c8_pending_table_invariant (my : Nat) :
    (∀ pend, Reach my pend → PendingInv pend)
    ∧ (∀ (now : Nat) (retx : MeshPacket → Nat) (pend : PendingTable)
        (p : MeshPacket),
        findPendingPacket (startRetransmission my now retx pend p)
            (p.from_, p.id)
          = some { packet := p, nextTxMsec := now + retx p,
                   numRetransmissions := NUM_RETRANSMISSIONS - 1 }) := by
  constructor
  · intro pend h
    induction h with
    | empty => intro e he; cases he
    | send_ pend now retx p hr ih =>
      by_cases hw : p.want_ack
      · simp only [rrSend, hw, if_pos]
        exact pendingInv_start my now retx _ ih
      · simpa [rrSend, hw] using ih
    | startR pend now retx p hr ih => exact pendingInv_start my now retx p ih
    | stopR pend key hr ih => exact pendingInv_stop ih
    | filterR pend ff p hr ih =>
      unfold rrShouldFilterReceived
      split
      · exact pendingInv_stop ih
      · exact ih
    | sniffR pend cr p c hr ih =>
      unfold rrSniffReceived
      split
      · dsimp only
        split
        · exact pendingInv_stop ih
        · split
          · exact pendingInv_stop ih
          · exact ih
      · exact ih
    | retxR pend now retx hr ih => exact pendingInv_doRetx my now retx ih
  · intro now retx pend p
    unfold startRetransmission findPendingPacket
    dsimp only
    rw [show globalPacketIdOf p = (p.from_, p.id) from rfl]
    rw [find?_eraseKey_append]
    rfl

/-- Witness for C8 at a concrete input: the table reached by one
`startRetransmission` of `cpkt` on the empty table satisfies the invariant
at its single entry. -/
theorem c8_pending_table_invariant_witness :
    ((4660, 187) : GlobalPacketId)
      = (({ packet := cpkt, nextTxMsec := 1000, numRetransmissions := 2 }
          : PendingPacket).packet.from_,
         ({ packet := cpkt, nextTxMsec := 1000, numRetransmissions := 2 }
          : PendingPacket).packet.id)
    ∧ ({ packet := cpkt, nextTxMsec := 1000, numRetransmissions := 2 }
        : PendingPacket).numRetransmissions < NUM_RETRANSMISSIONS := by
  have h := (c8_pending_table_invariant 5).1
      (startRetransmission 5 0 retx0 [] cpkt)
      (Reach.startR [] 0 retx0 cpkt Reach.empty)
      ((4660, 187), { packet := cpkt, nextTxMsec := 1000, numRetransmissions := 2 })
      (by rw [startRetransmission_empty]; decide)
  exact h

end Meshtastic
